import Mathlib

/-!
Verification of the single-route Flask application in `app/app.py`.

The application exposes one HTTP handler, `get_time_and_ip`, registered on
`GET /`.  It reads the system clock, converts the instant to the
`Asia/Kolkata` timezone, formats it with
`strftime("%d-%b-%Y %I:%M:%S %p IST")`, resolves the visitor IP as
`request.headers.get('X-Forwarded-For', request.remote_addr)`, and returns
`jsonify({"timestamp": ..., "ip": ...})`.

The embedding below models:
  * clock instants as seconds since the Unix epoch (`Nat`; the program only
    ever observes instants at which it runs, all after 1970);
  * the Gregorian calendar conversion performed by `datetime` (epoch
    seconds to year/month/day/hour/minute/second civil fields);
  * the `Asia/Kolkata` timezone: per the tz database this zone has been a
    fixed offset of UTC+5:30 with no daylight-saving rules for every
    instant since 1945, hence for every instant `datetime.now` can observe,
    so the conversion is a constant shift of 19800 seconds;
  * the strftime directives `%d`, `%b`, `%Y`, `%I`, `%M`, `%S`, `%p` used
    by the handler.  `%d`, `%I`, `%M`, `%S` are zero-padded two-digit
    fields (their arguments are always below 100); `%Y` is modelled as a
    four-digit field, faithful on the whole range `datetime` can represent
    (years up to 9999; our instants start at 1970);
  * the WSGI request as its method, path, header list and peer address, and
    the Flask response as status, content type and ordered JSON body.
-/

namespace App

/-- Gregorian leap-year rule, as used by `datetime`'s calendar. -/
def isLeap (y : Nat) : Bool :=
  (y % 4 == 0 && y % 100 != 0) || y % 400 == 0

/-- The leap day of year `y` as a number: 1 in leap years, else 0. -/
def leapN (y : Nat) : Nat :=
  if isLeap y then 1 else 0

/-- Number of days in year `y`. -/
def daysInYear (y : Nat) : Nat :=
  365 + leapN y

/-- Number of days in month `m` (1..12) of year `y`. -/
def daysInMonth (y m : Nat) : Nat :=
  match m with
  | 1 => 31
  | 2 => 28 + leapN y
  | 3 => 31
  | 4 => 30
  | 5 => 31
  | 6 => 30
  | 7 => 31
  | 8 => 31
  | 9 => 30
  | 10 => 31
  | 11 => 30
  | 12 => 31
  | _ => 31

/-- Locate the year containing day `d` (counted from Jan 1 of year `y`):
peel whole years off `d`.  `fuel` dominates `d`, so the fuel never runs
out on the calls we make (see `civilYearAux_spec`). -/
def civilYearAux : Nat → Nat → Nat → Nat × Nat
  | 0, y, d => (y, d)
  | fuel + 1, y, d =>
    if d < daysInYear y then (y, d)
    else civilYearAux fuel (y + 1) (d - daysInYear y)

/-- Year and day-of-year (0-based) of day `d` counted from 1970-01-01. -/
def civilYear (d : Nat) : Nat × Nat :=
  civilYearAux (d + 1) 1970 d

/-- Month (1..12) and day-of-month (1-based) for a 0-based day-of-year
`doy` in year `y`. -/
def monthDayOfYear (y doy : Nat) : Nat × Nat :=
  if doy < 31 then (1, doy + 1)
  else if doy < 59 + leapN y then (2, doy - 31 + 1)
  else if doy < 90 + leapN y then (3, doy - (59 + leapN y) + 1)
  else if doy < 120 + leapN y then (4, doy - (90 + leapN y) + 1)
  else if doy < 151 + leapN y then (5, doy - (120 + leapN y) + 1)
  else if doy < 181 + leapN y then (6, doy - (151 + leapN y) + 1)
  else if doy < 212 + leapN y then (7, doy - (181 + leapN y) + 1)
  else if doy < 243 + leapN y then (8, doy - (212 + leapN y) + 1)
  else if doy < 273 + leapN y then (9, doy - (243 + leapN y) + 1)
  else if doy < 304 + leapN y then (10, doy - (273 + leapN y) + 1)
  else if doy < 334 + leapN y then (11, doy - (304 + leapN y) + 1)
  else (12, doy - (334 + leapN y) + 1)

/-- Civil date-time fields, as carried by a Python `datetime` value. -/
structure Civil where
  year : Nat
  month : Nat
  day : Nat
  hour : Nat
  minute : Nat
  second : Nat
  deriving DecidableEq, Repr

/-- Convert seconds since the Unix epoch to civil fields, as
`datetime.fromtimestamp` does for a UTC-like fixed-offset zone. -/
def epochToCivil (t : Nat) : Civil :=
  let days := t / 86400
  let sod := t % 86400
  let yd := civilYear days
  let md := monthDayOfYear yd.1 yd.2
  { year := yd.1, month := md.1, day := md.2,
    hour := sod / 3600, minute := sod % 3600 / 60, second := sod % 60 }

/-- The `Asia/Kolkata` offset from UTC, in seconds: +5:30.  Per the tz
database the zone is this fixed offset, with no daylight-saving rules,
for every instant the running program can observe. -/
def istOffset : Nat := 19800

/-- Models `datetime.now(pytz.timezone('Asia/Kolkata'))` at UTC epoch
second `t`: the civil fields of the instant shifted by +5:30. -/
def istNow (t : Nat) : Civil :=
  epochToCivil (t + istOffset)

/-- The decimal digit character for `d % 10`. -/
def digitChar (d : Nat) : Char :=
  Char.ofNat (48 + d % 10)

/-- Zero-padded two-digit decimal rendering, as strftime's `%d`, `%I`,
`%M`, `%S` produce (every argument we pass is below 100). -/
def pad2 (n : Nat) : String :=
  String.mk [digitChar (n / 10), digitChar n]

/-- Four-digit decimal rendering, as strftime's `%Y` produces on the whole
range `datetime` can represent (years 1..9999; our instants give years
1970..9999). -/
def pad4 (n : Nat) : String :=
  String.mk [digitChar (n / 1000), digitChar (n / 100), digitChar (n / 10), digitChar n]

/-- Abbreviated month name, as strftime's `%b` produces in the C locale. -/
def monthAbbr (m : Nat) : String :=
  match m with
  | 1 => "Jan"
  | 2 => "Feb"
  | 3 => "Mar"
  | 4 => "Apr"
  | 5 => "May"
  | 6 => "Jun"
  | 7 => "Jul"
  | 8 => "Aug"
  | 9 => "Sep"
  | 10 => "Oct"
  | 11 => "Nov"
  | 12 => "Dec"
  | _ => "???"

/-- The 12-hour clock hour shown by strftime's `%I` for a 24-hour hour
`h` in 0..23: hours 0 and 12 render as 12. -/
def hour12 (h : Nat) : Nat :=
  if h % 12 == 0 then 12 else h % 12

/-- strftime's `%p` marker for a 24-hour hour `h` in 0..23. -/
def ampm (h : Nat) : String :=
  if h < 12 then "AM" else "PM"

/-- Models `strftime("%d-%b-%Y %I:%M:%S %p IST")` on civil fields. -/
def strftime_ist (c : Civil) : String :=
  pad2 c.day ++ "-" ++ monthAbbr c.month ++ "-" ++ pad4 c.year ++ " " ++
    pad2 (hour12 c.hour) ++ ":" ++ pad2 c.minute ++ ":" ++ pad2 c.second ++
    " " ++ ampm c.hour ++ " IST"

/-- `formatted_time` of the handler at UTC epoch second `t`:
`datetime.now(ist).strftime("%d-%b-%Y %I:%M:%S %p IST")`. -/
def formatted_time (t : Nat) : String :=
  strftime_ist (istNow t)

/-- A WSGI request as the handler can observe it: method, path, the header
list (name/value pairs) and the transport-layer peer address
(`request.remote_addr`). -/
structure Request where
  method : String
  path : String
  headers : List (String × String)
  remote_addr : String
  deriving DecidableEq, Repr

/-- First value bound to `key` in the header list, if any: the lookup
underlying `request.headers.get`. -/
def headersGetOpt : List (String × String) → String → Option String
  | [], _ => none
  | (k, v) :: rest, key => if k == key then some v else headersGetOpt rest key

/-- `request.headers.get(key, default)`: the header's value when the
header is present (even when that value is empty), the default otherwise. -/
def headers_get (hs : List (String × String)) (key dflt : String) : String :=
  (headersGetOpt hs key).getD dflt

/-- A Flask response: status code, content type, and the JSON object body
as an ordered field list. -/
structure Response where
  status : Nat
  contentType : String
  body : List (String × String)
  deriving DecidableEq, Repr

/-- The handler `get_time_and_ip` of `app/app.py`, as a function of the
request and the UTC clock instant `t`: formats the current IST time,
resolves the visitor IP from the `X-Forwarded-For` header with
`request.remote_addr` as fallback, and returns the jsonify'd body with
status 200 and content type `application/json`. -/
def get_time_and_ip (req : Request) (t : Nat) : Response :=
  let formatted_time := strftime_ist (istNow t)
  let visitor_ip := headers_get req.headers "X-Forwarded-For" req.remote_addr
  { status := 200, contentType := "application/json",
    body := [("timestamp", formatted_time), ("ip", visitor_ip)] }

/-- Flask's dispatch for this application: the single registered route is
`GET /`; an unknown path gets the framework's 404, a wrong method on `/`
its 405. -/
def dispatch (req : Request) (t : Nat) : Response :=
  if req.path = "/" then
    if req.method = "GET" then get_time_and_ip req t
    else { status := 405, contentType := "text/html", body := [] }
  else { status := 404, contentType := "text/html", body := [] }

/-- The `ip` field of a response body, if present. -/
def ipField (r : Response) : Option String :=
  headersGetOpt r.body "ip"

/-- The `timestamp` field of a response body, if present. -/
def timestampField (r : Response) : Option String :=
  headersGetOpt r.body "timestamp"

/-- Decidable form of the timestamp pattern
`^\d{2}-[A-Za-z]{3}-\d{4} \d{2}:\d{2}:\d{2} (AM|PM) IST$`:
exactly 27 characters with the digit, letter, separator, AM/PM-marker and
`IST`-suffix positions of the claim. -/
def matchesTimestampPattern (s : String) : Bool :=
  match s.data with
  | [d1, d2, s1, b1, b2, b3, s2, y1, y2, y3, y4, w1,
     i1, i2, c1, m1, m2, c2, e1, e2, w2, p1, p2, w3, l1, l2, l3] =>
    d1.isDigit && d2.isDigit && s1 == '-' &&
    b1.isAlpha && b2.isAlpha && b3.isAlpha && s2 == '-' &&
    y1.isDigit && y2.isDigit && y3.isDigit && y4.isDigit && w1 == ' ' &&
    i1.isDigit && i2.isDigit && c1 == ':' && m1.isDigit && m2.isDigit &&
    c2 == ':' && e1.isDigit && e2.isDigit && w2 == ' ' &&
    (p1 == 'A' || p1 == 'P') && p2 == 'M' && w3 == ' ' &&
    l1 == 'I' && l2 == 'S' && l3 == 'T'
  | _ => false

/-- The two characters of the hour field of a rendered timestamp
(positions 12 and 13 of `DD-Mon-YYYY HH:MM:SS AM/PM IST`). -/
def hourField (s : String) : String :=
  String.mk ((s.data.drop 12).take 2)

/-- The two characters of the AM/PM field of a rendered timestamp
(positions 21 and 22). -/
def ampmField (s : String) : String :=
  String.mk ((s.data.drop 21).take 2)

/-! ### Specification-side calendar functions (used to state round-trips) -/

/-- Total days in the `n` consecutive years starting at year `y`. -/
def yearsDays : Nat → Nat → Nat
  | _, 0 => 0
  | y, n + 1 => daysInYear y + yearsDays (y + 1) n

/-- Days from 1970-01-01 to Jan 1 of year `y` (for `y ≥ 1970`). -/
def daysBeforeYear (y : Nat) : Nat :=
  yearsDays 1970 (y - 1970)

/-- Days in year `y` strictly before month `m` (1..12). -/
def daysBeforeMonth (y m : Nat) : Nat :=
  match m with
  | 1 => 0
  | 2 => 31
  | 3 => 59 + leapN y
  | 4 => 90 + leapN y
  | 5 => 120 + leapN y
  | 6 => 151 + leapN y
  | 7 => 181 + leapN y
  | 8 => 212 + leapN y
  | 9 => 243 + leapN y
  | 10 => 273 + leapN y
  | 11 => 304 + leapN y
  | 12 => 334 + leapN y
  | _ => 365 + leapN y

/-- Inverse of `epochToCivil`: seconds since the Unix epoch denoted by
civil fields (read as a fixed-offset-zone wall clock). -/
def civilToEpoch (c : Civil) : Nat :=
  (daysBeforeYear c.year + daysBeforeMonth c.year c.month + (c.day - 1)) * 86400
    + c.hour * 3600 + c.minute * 60 + c.second

/-! ### Calendar lemmas -/

theorem daysInYear_pos (y : Nat) : 0 < daysInYear y := by
  unfold daysInYear
  omega

theorem yearsDays_succ (y n : Nat) :
    yearsDays y (n + 1) = daysInYear y + yearsDays (y + 1) n := rfl

theorem yearsDays_zero (y : Nat) : yearsDays y 0 = 0 := rfl

theorem civilYearAux_spec :
    ∀ (fuel y d : Nat), d < fuel →
      y ≤ (civilYearAux fuel y d).1 ∧
      (civilYearAux fuel y d).2 < daysInYear (civilYearAux fuel y d).1 ∧
      yearsDays y ((civilYearAux fuel y d).1 - y) + (civilYearAux fuel y d).2 = d := by
  intro fuel
  induction fuel with
  | zero => intro y d h; omega
  | succ f ih =>
    intro y d h
    by_cases hd : d < daysInYear y
    · simp only [civilYearAux, if_pos hd]
      refine ⟨Nat.le_refl y, hd, ?_⟩
      rw [Nat.sub_self, yearsDays_zero]
      omega
    · have hpos := daysInYear_pos y
      have h' : d - daysInYear y < f := by omega
      obtain ⟨h1, h2, h3⟩ := ih (y + 1) (d - daysInYear y) h'
      simp only [civilYearAux, if_neg hd]
      refine ⟨by omega, h2, ?_⟩
      have hy2 : (civilYearAux f (y + 1) (d - daysInYear y)).1 - y
          = ((civilYearAux f (y + 1) (d - daysInYear y)).1 - (y + 1)) + 1 := by omega
      rw [hy2, yearsDays_succ]
      omega

theorem civilYear_spec (d : Nat) :
    1970 ≤ (civilYear d).1 ∧
    (civilYear d).2 < daysInYear (civilYear d).1 ∧
    daysBeforeYear (civilYear d).1 + (civilYear d).2 = d := by
  have h := civilYearAux_spec (d + 1) 1970 d (by omega)
  unfold civilYear daysBeforeYear
  exact h

theorem monthDayOfYear_spec (y doy : Nat) (h : doy < daysInYear y) :
    1 ≤ (monthDayOfYear y doy).1 ∧ (monthDayOfYear y doy).1 ≤ 12 ∧
    1 ≤ (monthDayOfYear y doy).2 ∧
    (monthDayOfYear y doy).2 ≤ daysInMonth y (monthDayOfYear y doy).1 ∧
    daysBeforeMonth y (monthDayOfYear y doy).1 + ((monthDayOfYear y doy).2 - 1) = doy := by
  unfold daysInYear at h
  unfold monthDayOfYear
  by_cases h1 : doy < 31
  · rw [if_pos h1]; simp only [daysBeforeMonth, daysInMonth]; omega
  rw [if_neg h1]
  by_cases h2 : doy < 59 + leapN y
  · rw [if_pos h2]; simp only [daysBeforeMonth, daysInMonth]; omega
  rw [if_neg h2]
  by_cases h3 : doy < 90 + leapN y
  · rw [if_pos h3]; simp only [daysBeforeMonth, daysInMonth]; omega
  rw [if_neg h3]
  by_cases h4 : doy < 120 + leapN y
  · rw [if_pos h4]; simp only [daysBeforeMonth, daysInMonth]; omega
  rw [if_neg h4]
  by_cases h5 : doy < 151 + leapN y
  · rw [if_pos h5]; simp only [daysBeforeMonth, daysInMonth]; omega
  rw [if_neg h5]
  by_cases h6 : doy < 181 + leapN y
  · rw [if_pos h6]; simp only [daysBeforeMonth, daysInMonth]; omega
  rw [if_neg h6]
  by_cases h7 : doy < 212 + leapN y
  · rw [if_pos h7]; simp only [daysBeforeMonth, daysInMonth]; omega
  rw [if_neg h7]
  by_cases h8 : doy < 243 + leapN y
  · rw [if_pos h8]; simp only [daysBeforeMonth, daysInMonth]; omega
  rw [if_neg h8]
  by_cases h9 : doy < 273 + leapN y
  · rw [if_pos h9]; simp only [daysBeforeMonth, daysInMonth]; omega
  rw [if_neg h9]
  by_cases h10 : doy < 304 + leapN y
  · rw [if_pos h10]; simp only [daysBeforeMonth, daysInMonth]; omega
  rw [if_neg h10]
  by_cases h11 : doy < 334 + leapN y
  · rw [if_pos h11]; simp only [daysBeforeMonth, daysInMonth]; omega
  rw [if_neg h11]
  simp only [daysBeforeMonth, daysInMonth]
  omega

/-! ### String-shape lemmas for the formatted timestamp -/

theorem digitChar_isDigit (n : Nat) : (digitChar n).isDigit = true := by
  unfold digitChar
  have h : n % 10 < 10 := Nat.mod_lt _ (by omega)
  generalize hk : n % 10 = k at h ⊢
  interval_cases k <;> decide

theorem monthAbbr_shape (m : Nat) (h1 : 1 ≤ m) (h2 : m ≤ 12) :
    ∃ a b c, (monthAbbr m).data = [a, b, c] ∧
      a.isAlpha = true ∧ b.isAlpha = true ∧ c.isAlpha = true := by
  interval_cases m <;> exact ⟨_, _, _, rfl, by decide, by decide, by decide⟩

theorem pad2_data (n : Nat) : (pad2 n).data = [digitChar (n / 10), digitChar n] := rfl

theorem pad4_data (n : Nat) :
    (pad4 n).data = [digitChar (n / 1000), digitChar (n / 100), digitChar (n / 10), digitChar n] := rfl

/-- The character list of the rendered timestamp, given the month
abbreviation's characters. -/
theorem strftime_ist_data (c : Civil) (a b d : Char)
    (hm : (monthAbbr c.month).data = [a, b, d]) :
    (strftime_ist c).data =
      [digitChar (c.day / 10), digitChar c.day, '-', a, b, d, '-',
       digitChar (c.year / 1000), digitChar (c.year / 100),
       digitChar (c.year / 10), digitChar c.year, ' ',
       digitChar (hour12 c.hour / 10), digitChar (hour12 c.hour), ':',
       digitChar (c.minute / 10), digitChar c.minute, ':',
       digitChar (c.second / 10), digitChar c.second, ' '] ++
      (ampm c.hour).data ++ [' ', 'I', 'S', 'T'] := by
  simp [strftime_ist, pad2, pad4, String.data_append, hm]

theorem ampm_data (h : Nat) :
    (ampm h).data = ['A', 'M'] ∨ (ampm h).data = ['P', 'M'] := by
  unfold ampm
  split_ifs <;> simp

theorem civil_roundtrip (t : Nat) : civilToEpoch (epochToCivil t) = t := by
  have hy := civilYear_spec (t / 86400)
  have hm := monthDayOfYear_spec (civilYear (t / 86400)).1 (civilYear (t / 86400)).2 hy.2.1
  simp only [civilToEpoch, epochToCivil]
  omega

theorem leapN_le (y : Nat) : leapN y ≤ 1 := by
  unfold leapN
  split_ifs <;> omega

theorem daysInMonth_le (y m : Nat) : daysInMonth y m ≤ 31 := by
  have := leapN_le y
  unfold daysInMonth
  split <;> omega

theorem epochToCivil_fields (t : Nat) :
    1970 ≤ (epochToCivil t).year ∧
    1 ≤ (epochToCivil t).month ∧ (epochToCivil t).month ≤ 12 ∧
    1 ≤ (epochToCivil t).day ∧ (epochToCivil t).day ≤ 31 ∧
    (epochToCivil t).hour ≤ 23 ∧
    (epochToCivil t).minute ≤ 59 ∧ (epochToCivil t).second ≤ 59 := by
  have hy := civilYear_spec (t / 86400)
  have hm := monthDayOfYear_spec (civilYear (t / 86400)).1 (civilYear (t / 86400)).2 hy.2.1
  have hd := daysInMonth_le (civilYear (t / 86400)).1 (monthDayOfYear (civilYear (t / 86400)).1 (civilYear (t / 86400)).2).1
  simp only [epochToCivil]
  omega

theorem hour12_bounds (h : Nat) : 1 ≤ hour12 h ∧ hour12 h ≤ 12 := by
  unfold hour12
  split_ifs with hz
  · omega
  · simp only [beq_iff_eq] at hz
    have hlt : h % 12 < 12 := Nat.mod_lt _ (by omega)
    omega

theorem pad2_ne_00 (n : Nat) (h1 : 1 ≤ n) (h2 : n ≤ 12) : pad2 n ≠ "00" := by
  interval_cases n <;> decide

/-! ### The claims -/

/-- Claim C1 is false as stated: for a proxy-chain header
`X-Forwarded-For: 1.2.3.4, 5.6.7.8` the handler's `ip` field is the whole
header value, not its first comma-separated element `"1.2.3.4"`. -/
theorem C1_counterexample :
    ipField (get_time_and_ip
      { method := "GET", path := "/",
        headers := [("X-Forwarded-For", "1.2.3.4, 5.6.7.8")],
        remote_addr := "9.9.9.9" } 0) = some "1.2.3.4, 5.6.7.8" ∧
    ("1.2.3.4, 5.6.7.8" : String) ≠ "1.2.3.4" := by
  constructor
  · rfl
  · decide

/-- Claim C1 (amended): for every request in which the `X-Forwarded-For`
header is present, the `ip` field of the response equals the entire
header value (which is its first value only when the header carries a
single element, as in the spec's `1.2.3.4` example). -/
theorem C1_amended_full_header (req : Request) (t : Nat) (v : String)
    (h : headersGetOpt req.headers "X-Forwarded-For" = some v) :
    ipField (get_time_and_ip req t) = some v := by
  have hgd : ipField (get_time_and_ip req t)
      = some (headers_get req.headers "X-Forwarded-For" req.remote_addr) := rfl
  rw [hgd]
  unfold headers_get
  rw [h]
  rfl

/-- Witness for C1 (amended) at a concrete proxy-chain request. -/
theorem C1_amended_witness :
    ipField (get_time_and_ip
      { method := "GET", path := "/",
        headers := [("X-Forwarded-For", "1.2.3.4, 5.6.7.8")],
        remote_addr := "9.9.9.9" } 3) = some "1.2.3.4, 5.6.7.8" :=
  C1_amended_full_header _ 3 "1.2.3.4, 5.6.7.8" rfl

/-- Claim C2 is false as stated: when the `X-Forwarded-For` header is
present with an empty value, the handler's `ip` field is the empty
string, not the peer address. -/
theorem C2_counterexample :
    ipField (get_time_and_ip
      { method := "GET", path := "/",
        headers := [("X-Forwarded-For", "")],
        remote_addr := "127.0.0.1" } 0) = some "" ∧
    ("" : String) ≠ "127.0.0.1" := by
  constructor
  · rfl
  · decide

/-- Claim C2 (amended): for every request in which the `X-Forwarded-For`
header is present with the empty string as value, the `ip` field of the
response equals the empty string (the header value verbatim); the
fallback to the peer address happens only when the header is absent. -/
theorem C2_amended_empty_header (req : Request) (t : Nat)
    (h : headersGetOpt req.headers "X-Forwarded-For" = some "") :
    ipField (get_time_and_ip req t) = some "" := by
  have hgd : ipField (get_time_and_ip req t)
      = some (headers_get req.headers "X-Forwarded-For" req.remote_addr) := rfl
  rw [hgd]
  unfold headers_get
  rw [h]
  rfl

/-- Witness for C2 (amended) at a concrete empty-header request. -/
theorem C2_amended_witness :
    ipField (get_time_and_ip
      { method := "GET", path := "/",
        headers := [("X-Forwarded-For", "")],
        remote_addr := "127.0.0.1" } 3) = some "" :=
  C2_amended_empty_header _ 3 rfl

/-- Claim C3: a request carrying `X-Forwarded-For: 203.0.113.9` handled
when the clock reads 2024-01-05T10:15:30Z — epoch second 1704449730, as
the first conjunct certifies through `epochToCivil` — produces
`ip = "203.0.113.9"` and `timestamp = "05-Jan-2024 03:45:30 PM IST"`. -/
theorem C3_scenario :
    epochToCivil 1704449730 = ⟨2024, 1, 5, 10, 15, 30⟩ ∧
    get_time_and_ip
      { method := "GET", path := "/",
        headers := [("X-Forwarded-For", "203.0.113.9")],
        remote_addr := "10.0.0.1" } 1704449730
      = { status := 200, contentType := "application/json",
          body := [("timestamp", "05-Jan-2024 03:45:30 PM IST"),
                   ("ip", "203.0.113.9")] } := by
  constructor
  · decide
  · decide

/-- Claim C4: for every clock instant, the civil time the handler renders
into the `timestamp` field is the UTC instant shifted by exactly the fixed
offset +5:30 (19800 seconds), with no daylight-saving adjustment: the
fields of `istNow t` decode through the calendar inverse `civilToEpoch`
to `t + istOffset` for every `t`, with the same constant `istOffset`
at every instant. -/
theorem C4_fixed_offset (t : Nat) :
    formatted_time t = strftime_ist (istNow t) ∧
    civilToEpoch (istNow t) = t + istOffset ∧
    istOffset = 5 * 3600 + 30 * 60 := by
  refine ⟨rfl, ?_, rfl⟩
  unfold istNow
  exact civil_roundtrip (t + istOffset)

/-- Claim C5: for every clock instant the program can represent (Python
`datetime` caps years at 9999, which bounds the instants the clock read
can return), the `timestamp` string matches
`^\d{2}-[A-Za-z]{3}-\d{4} \d{2}:\d{2}:\d{2} (AM|PM) IST$`. -/
theorem C5_pattern (t : Nat) (h9 : (istNow t).year ≤ 9999) :
    matchesTimestampPattern (formatted_time t) = true := by
  obtain ⟨hy70, hm1, hm2, _⟩ := epochToCivil_fields (t + istOffset)
  obtain ⟨a, b, d, hm3, ha, hb, hd3⟩ :=
    monthAbbr_shape (epochToCivil (t + istOffset)).month hm1 hm2
  have hdata := strftime_ist_data (epochToCivil (t + istOffset)) a b d hm3
  unfold formatted_time istNow
  unfold matchesTimestampPattern
  rw [hdata]
  rcases ampm_data (epochToCivil (t + istOffset)).hour with hA | hA <;> rw [hA] <;>
    simp [digitChar_isDigit, ha, hb, hd3]

/-- Witness for C5 at the concrete instant 2024-01-05T10:15:30Z. -/
theorem C5_witness :
    (istNow 1704449730).year ≤ 9999 ∧
    matchesTimestampPattern (formatted_time 1704449730) = true :=
  ⟨by decide, C5_pattern 1704449730 (by decide)⟩

/-- Claim C6: for every request without an `X-Forwarded-For` header, the
`ip` field of the response equals the transport-layer peer address. -/
theorem C6_fallback_peer (req : Request) (t : Nat)
    (h : headersGetOpt req.headers "X-Forwarded-For" = none) :
    ipField (get_time_and_ip req t) = some req.remote_addr := by
  have hgd : ipField (get_time_and_ip req t)
      = some (headers_get req.headers "X-Forwarded-For" req.remote_addr) := rfl
  rw [hgd]
  unfold headers_get
  rw [h]
  rfl

/-- Witness for C6 at a concrete header-free request from peer 127.0.0.1. -/
theorem C6_witness :
    ipField (get_time_and_ip
      { method := "GET", path := "/",
        headers := [("User-Agent", "curl")],
        remote_addr := "127.0.0.1" } 3) = some "127.0.0.1" :=
  C6_fallback_peer _ 3 rfl

/-- Claim C7: every HTTP GET to the root path is dispatched to the
handler and yields status 200 with content type `application/json` and a
JSON body whose fields are exactly `timestamp` (the formatted current
time) and `ip` (the resolved client IP). -/
theorem C7_get_root (req : Request) (t : Nat)
    (hm : req.method = "GET") (hp : req.path = "/") :
    dispatch req t = get_time_and_ip req t ∧
    (dispatch req t).status = 200 ∧
    (dispatch req t).contentType = "application/json" ∧
    (dispatch req t).body.map Prod.fst = ["timestamp", "ip"] ∧
    timestampField (dispatch req t) = some (formatted_time t) ∧
    ipField (dispatch req t)
      = some (headers_get req.headers "X-Forwarded-For" req.remote_addr) := by
  have hd : dispatch req t = get_time_and_ip req t := by
    unfold dispatch
    rw [hp, hm]
    simp
  refine ⟨hd, ?_, ?_, ?_, ?_, ?_⟩ <;> rw [hd] <;> rfl

/-- Witness for C7 at a concrete GET request to the root path. -/
theorem C7_witness :
    dispatch { method := "GET", path := "/", headers := [], remote_addr := "127.0.0.1" } 7
      = get_time_and_ip { method := "GET", path := "/", headers := [], remote_addr := "127.0.0.1" } 7 ∧
    (dispatch { method := "GET", path := "/", headers := [], remote_addr := "127.0.0.1" } 7).status = 200 ∧
    (dispatch { method := "GET", path := "/", headers := [], remote_addr := "127.0.0.1" } 7).contentType = "application/json" ∧
    (dispatch { method := "GET", path := "/", headers := [], remote_addr := "127.0.0.1" } 7).body.map Prod.fst = ["timestamp", "ip"] ∧
    timestampField (dispatch { method := "GET", path := "/", headers := [], remote_addr := "127.0.0.1" } 7) = some (formatted_time 7) ∧
    ipField (dispatch { method := "GET", path := "/", headers := [], remote_addr := "127.0.0.1" } 7)
      = some (headers_get [] "X-Forwarded-For" "127.0.0.1") :=
  C7_get_root _ 7 rfl rfl

/-- Claim C8: the handler is total — for every request (any header list,
any peer address) and every instant it produces the well-formed 200
response, whether the `X-Forwarded-For` lookup succeeds (left disjunct)
or degrades to the peer-address fallback (right disjunct); no other
outcome exists. -/
theorem C8_handler_total (req : Request) (t : Nat) :
    (∃ v, headersGetOpt req.headers "X-Forwarded-For" = some v ∧
        get_time_and_ip req t
          = { status := 200, contentType := "application/json",
              body := [("timestamp", formatted_time t), ("ip", v)] }) ∨
    (headersGetOpt req.headers "X-Forwarded-For" = none ∧
        get_time_and_ip req t
          = { status := 200, contentType := "application/json",
              body := [("timestamp", formatted_time t),
                       ("ip", req.remote_addr)] }) := by
  cases h : headersGetOpt req.headers "X-Forwarded-For" with
  | none =>
    right
    refine ⟨rfl, ?_⟩
    unfold get_time_and_ip headers_get formatted_time
    rw [h]
    rfl
  | some v =>
    left
    refine ⟨v, rfl, ?_⟩
    unfold get_time_and_ip headers_get formatted_time
    rw [h]
    rfl

/-- Claim C9: for every clock instant, the hour field of the rendered
timestamp (characters 12-13) is `pad2` of `hour12` of the IST hour, which
always lies in 1..12, so `"00"` never appears; the 12-hour conversion
sends midnight (hour 0) to `12` with marker `AM` and noon (hour 12) to
`12` with marker `PM`, as the closed conjuncts state. -/
theorem C9_hour_range (t : Nat) :
    hourField (formatted_time t) = pad2 (hour12 ((istNow t).hour)) ∧
    ampmField (formatted_time t) = ampm ((istNow t).hour) ∧
    1 ≤ hour12 ((istNow t).hour) ∧ hour12 ((istNow t).hour) ≤ 12 ∧
    hourField (formatted_time t) ≠ "00" ∧
    pad2 (hour12 0) = "12" ∧ ampm 0 = "AM" ∧
    pad2 (hour12 12) = "12" ∧ ampm 12 = "PM" := by
  obtain ⟨hy70, hm1, hm2, _⟩ := epochToCivil_fields (t + istOffset)
  obtain ⟨a, b, d, hm3, ha, hb, hd3⟩ :=
    monthAbbr_shape (epochToCivil (t + istOffset)).month hm1 hm2
  have hdata := strftime_ist_data (epochToCivil (t + istOffset)) a b d hm3
  have hb12 := hour12_bounds ((epochToCivil (t + istOffset)).hour)
  unfold formatted_time istNow
  have hhf : hourField (strftime_ist (epochToCivil (t + istOffset)))
      = pad2 (hour12 ((epochToCivil (t + istOffset)).hour)) := by
    unfold hourField
    rw [hdata]
    rfl
  have haf : ampmField (strftime_ist (epochToCivil (t + istOffset)))
      = ampm ((epochToCivil (t + istOffset)).hour) := by
    unfold ampmField
    rw [hdata]
    rcases ampm_data (epochToCivil (t + istOffset)).hour with hA | hA <;>
      rw [show ampm ((epochToCivil (t + istOffset)).hour)
            = String.mk ((ampm ((epochToCivil (t + istOffset)).hour)).data) from rfl,
          hA] <;>
      rfl
  refine ⟨hhf, haf, hb12.1, hb12.2, ?_, by decide, by decide, by decide, by decide⟩
  rw [hhf]
  exact pad2_ne_00 _ hb12.1 hb12.2

/-- Claim C10: the handler is deterministic and stateless — the response
is a function of exactly the clock instant, the `X-Forwarded-For` header
value, and the peer address; two invocations agreeing on those three
inputs produce identical responses regardless of any other request
data. -/
theorem C10_deterministic (r1 r2 : Request) (t : Nat)
    (hxff : headersGetOpt r1.headers "X-Forwarded-For"
      = headersGetOpt r2.headers "X-Forwarded-For")
    (hpeer : r1.remote_addr = r2.remote_addr) :
    get_time_and_ip r1 t = get_time_and_ip r2 t := by
  unfold get_time_and_ip headers_get
  rw [hxff, hpeer]

/-- Witness for C10: two requests differing in method, path and the other
headers, but agreeing on the `X-Forwarded-For` value and the peer
address, get identical responses. -/
theorem C10_witness :
    get_time_and_ip
      { method := "GET", path := "/",
        headers := [("User-Agent", "curl"), ("X-Forwarded-For", "1.2.3.4")],
        remote_addr := "8.8.8.8" } 5
      = get_time_and_ip
          { method := "POST", path := "/other",
            headers := [("X-Forwarded-For", "1.2.3.4"), ("Accept", "text/html")],
            remote_addr := "8.8.8.8" } 5 :=
  C10_deterministic _ _ 5 rfl rfl

end App
